import Mathlib

/-!
Verification of the landing-page scripts (script.js and its optimized
rewrite, site-optimized.js). The definitions below are a shallow embedding
of the scroll coordinator, the intersection-observer discipline, the hero
slider timers, the countdown, the active-nav-link logic and the outbound
UTM tagger, followed by theorems settling the specification's claims.
Scroll offsets and epoch times are modelled as Int (JavaScript numbers at
integral values); interval-timer ids as Nat; a JavaScript value that may be
null or NaN as an Option; a statement that may throw as an Except.
-/

namespace Besher

/-! ## Scroll coordinator (script.js 221-263, optimized file 170-214) -/

/-- State of the requestAnimationFrame coalescing used by onScroll and
updateHeader: the ticking flag, the number of frame callbacks scheduled for
the current frame, and the number of times the batched update routine has
run in the current frame. -/
structure Coord where
  ticking : Bool
  scheduled : Nat
  runs : Nat
deriving Repr, DecidableEq

/-- Idle coordinator at the start of a frame: not ticking, nothing
scheduled, no runs yet. -/
def Coord.idle : Coord := ⟨false, 0, 0⟩

/-- The scroll listener onScroll (script.js 254-259, optimized file
206-211): when not ticking it schedules one requestAnimationFrame callback
and sets ticking; when ticking it does nothing. -/
def onScroll (c : Coord) : Coord :=
  if c.ticking then c
  else { c with scheduled := c.scheduled + 1, ticking := true }

/-- End of the frame: every scheduled callback runs the batched routine
once, and each run of updateHeader resets ticking to false. -/
def fireFrame (c : Coord) : Coord :=
  { ticking := if c.scheduled = 0 then c.ticking else false
    scheduled := 0
    runs := c.runs + c.scheduled }

/-- Per-frame listener state of script.js: the coalesced header coordinator
plus a count of invocations of setActiveLink, which script.js line 307
attaches directly to the scroll event with no coalescing. -/
structure ScriptScrollPage where
  coord : Coord
  activeLinkRuns : Nat
deriving Repr, DecidableEq

/-- Dispatch of one scroll event in script.js: the browser invokes every
registered scroll listener, so onScroll runs (coalesced) and setActiveLink
runs immediately. -/
def scriptScrollEvent (s : ScriptScrollPage) : ScriptScrollPage :=
  { coord := onScroll s.coord, activeLinkRuns := s.activeLinkRuns + 1 }

/-- Dispatch of n scroll events in script.js. -/
def scriptScrollN : Nat → ScriptScrollPage → ScriptScrollPage
  | 0, s => s
  | n + 1, s => scriptScrollN n (scriptScrollEvent s)

/-- A whole frame of script.js activity: n scroll events starting from the
idle state, then the animation frame fires. -/
def scriptFrameRun (n : Nat) : ScriptScrollPage :=
  let s := scriptScrollN n ⟨Coord.idle, 0⟩
  { s with coord := fireFrame s.coord }

/-- Per-frame listener state of the optimized file: the header coordinator
and the active-link coordinator of initActiveNavOnScroll each coalesce with
their own ticking flag. -/
structure OptScrollPage where
  headerCoord : Coord
  activeCoord : Coord
deriving Repr, DecidableEq

/-- Dispatch of one scroll event in the optimized file: both listeners are
rAF-coalesced. -/
def optScrollEvent (s : OptScrollPage) : OptScrollPage :=
  { headerCoord := onScroll s.headerCoord, activeCoord := onScroll s.activeCoord }

/-- Dispatch of n scroll events in the optimized file. -/
def optScrollN : Nat → OptScrollPage → OptScrollPage
  | 0, s => s
  | n + 1, s => optScrollN n (optScrollEvent s)

/-- A whole frame of the optimized file's activity: n scroll events from
idle, then the frame fires both scheduled routines. -/
def optFrameRun (n : Nat) : OptScrollPage :=
  let s := optScrollN n ⟨Coord.idle, Coord.idle⟩
  { headerCoord := fireFrame s.headerCoord, activeCoord := fireFrame s.activeCoord }

/-! ## Header update routine (script.js 227-252, optimized file 182-204) -/

/-- Observable DOM state written by updateHeader, together with the
lastScroll variable the closure maintains. -/
structure HeaderState where
  scrolled : Bool
  hide : Bool
  backShow : Bool
  lastScroll : Int
deriving Repr, DecidableEq

/-- updateHeader: toggles the scrolled class at offset greater than 50;
skips the hide/show block entirely while the mobile nav menu is open;
otherwise hides exactly when scrolling down (current greater than last) and
past the header height; toggles the back-to-top show class at offset
greater than 300 when the button exists; and stores the current offset
clamped at zero into lastScroll. Identical logic in both files. -/
def updateHeader (navMenuActive : Bool) (headerHeight : Int)
    (backBtnPresent : Bool) (currentScroll : Int) (st : HeaderState) :
    HeaderState :=
  let scrolled := decide (50 < currentScroll)
  let hide :=
    if navMenuActive then st.hide
    else decide (st.lastScroll < currentScroll ∧ headerHeight < currentScroll)
  let backShow :=
    if backBtnPresent then decide (300 < currentScroll) else st.backShow
  { scrolled := scrolled
    hide := hide
    backShow := backShow
    lastScroll := if currentScroll ≤ 0 then 0 else currentScroll }

/-- DOM state of the back-to-top button (its show class). -/
structure BackBtn where
  shown : Bool
deriving Repr, DecidableEq

/-- toggleBackToTopButton (script.js 526-532): dereferences the global
backToTopButton unconditionally, so with no such element on the page the
handler throws instead of no-opping. -/
def toggleBackToTopButton (btn : Option BackBtn) (pageYOffset : Int) :
    Except String BackBtn :=
  match btn with
  | none => .error "TypeError: backToTopButton is null"
  | some _ => .ok ⟨decide (300 < pageYOffset)⟩

/-- The top-level statement backToTopButton.addEventListener at script.js
line 542, executed at script load: a missing button is a thrown TypeError
that also aborts the rest of the script. -/
def backToTopListenerSetup (btn : Option BackBtn) : Except String Unit :=
  match btn with
  | none => .error "TypeError: backToTopButton is null"
  | some _ => .ok ()

/-! ## Accordion outside-click handler -/

/-- The document-level click handler of script.js lines 444-451. It is
registered outside the accordion existence guard and calls
accordion.contains unconditionally, so with no accordion on the page every
document click throws. The accordion is modelled as the list of open flags
of its items; a click outside closes every panel. -/
def accordionOutsideClick (accordion : Option (List Bool))
    (clickInside : Bool) : Except String (Option (List Bool)) :=
  match accordion with
  | none => .error "TypeError: accordion is null"
  | some panels =>
      if clickInside then .ok (some panels)
      else .ok (some (panels.map fun _ => false))

/-- The same handler in the optimized file (lines 550-561): initAccordion
returns early when the accordion is absent, so no handler is registered and
a click changes nothing. -/
def optAccordionOutsideClick (accordion : Option (List Bool))
    (clickInside : Bool) : Option (List Bool) :=
  match accordion with
  | none => none
  | some panels =>
      if clickInside then some panels
      else some (panels.map fun _ => false)

/-! ## Countdown (script.js 475-521, optimized file 362-407) -/

/-- Milliseconds in four days, as computed in both files. -/
def fourDaysMs : Int := 4 * 24 * 60 * 60 * 1000

/-- Outcome of one updateCountdown invocation: skip when the container or
its attribute is absent; reset when the data-countdown-date attribute is
rewritten to the given epoch-millisecond target with nothing rendered;
render with the four displayed units, where none encodes the JavaScript
NaN produced by arithmetic on an unparsable date. -/
inductive CountdownStep where
  | skip
  | reset (newTarget : Int)
  | render (days hours minutes seconds : Option Int)
deriving Repr, DecidableEq

/-- updateCountdown from script.js: attr is the attribute state, with the
inner Option the result of new Date(attr).getTime() (none encodes NaN). In
JavaScript, NaN compared with 0 is false, so an unparsable date skips the
reset branch and every rendered unit is NaN. -/
def updateCountdown (attr : Option (Option Int)) (now : Int) :
    CountdownStep :=
  match attr with
  | none => .skip
  | some none => .render none none none none
  | some (some target) =>
      let distance := target - now
      if distance < 0 then .reset (now + fourDaysMs)
      else
        .render (some (distance / (1000 * 60 * 60 * 24)))
          (some ((distance % (1000 * 60 * 60 * 24)) / (1000 * 60 * 60)))
          (some ((distance % (1000 * 60 * 60)) / (1000 * 60)))
          (some ((distance % (1000 * 60)) / 1000))

/-- updateCountdown from the optimized file: it guards with
isNaN(countDownDate) or countDownDate less than now and reinitializes the
target in both cases before any rendering. -/
def updateCountdownOpt (attr : Option (Option Int)) (now : Int) :
    CountdownStep :=
  match attr with
  | none => .skip
  | some none => .reset (now + fourDaysMs)
  | some (some target) =>
      if target < now then .reset (now + fourDaysMs)
      else
        let distance := target - now
        .render (some (distance / (1000 * 60 * 60 * 24)))
          (some ((distance % (1000 * 60 * 60 * 24)) / (1000 * 60 * 60)))
          (some ((distance % (1000 * 60 * 60)) / (1000 * 60)))
          (some ((distance % (1000 * 60)) / 1000))

/-! ## Active nav link (script.js 283-303, optimized file 330-345) -/

/-- Geometry and id of a section element, as sampled from offsetTop and
offsetHeight. -/
structure PageSection where
  offsetTop : Int
  offsetHeight : Int
  id : String
deriving Repr, DecidableEq

/-- A navigation link: its href attribute and whether it carries the active
class. -/
structure NavLink where
  href : String
  active : Bool
deriving Repr, DecidableEq

/-- The matching condition of setActiveLink: scrollPosition at least
sectionTop and strictly below sectionTop plus sectionHeight. -/
def sectionMatch (scrollPos : Int) (s : PageSection) : Bool :=
  decide (s.offsetTop ≤ scrollPos ∧ scrollPos < s.offsetTop + s.offsetHeight)

/-- Inner loop of setActiveLink: every link's active class is toggled to
whether its href equals the hash of the given section id. -/
def applySection (links : List NavLink) (id : String) : List NavLink :=
  links.map fun l => { l with active := decide (l.href = "#" ++ id) }

/-- setActiveLink: scrollPosition is scrollY plus 100; the sections are
visited in document order and each section containing scrollPosition
rewrites all the links' active classes; when no section matches the links
are left untouched. Identical logic in both files. -/
def setActiveLink (sections : List PageSection) (links : List NavLink)
    (scrollY : Int) : List NavLink :=
  sections.foldl
    (fun ls s => if sectionMatch (scrollY + 100) s then applySection ls s.id else ls)
    links

/-- Last element of a list satisfying a predicate; used to characterize
which matching section's id the loop of setActiveLink leaves in effect. -/
def lastMatch (p : α → Bool) : List α → Option α
  | [] => none
  | a :: rest =>
      match lastMatch p rest with
      | some b => some b
      | none => if p a then some a else none

/-! ## One-shot intersection observers (script.js 17-48, optimized file
39-57 and 69-102) -/

/-- State of a one-shot intersection observer: the set of element ids still
observed, and the log of visible-callback firings. -/
structure ObsState where
  observed : List Nat
  fireLog : List Nat
deriving Repr, DecidableEq

/-- Processing of one callback batch, entry by entry: an entry whose target
is intersecting fires the visible callback and unobserves the target. The
platform delivers entries only for targets still in the observation set,
which the membership test encodes. Both the lazy-image callback and the
aos-animate callback end the intersecting branch with observer.unobserve. -/
def stepEntries : ObsState → List (Nat × Bool) → ObsState
  | st, [] => st
  | st, (e, inter) :: rest =>
      stepEntries
        (if inter && st.observed.contains e then
          { observed := st.observed.filter (fun x => x != e)
            fireLog := e :: st.fireLog }
        else st) rest

/-- A sequence of observer check cycles. -/
def runObserver : ObsState → List (List (Nat × Bool)) → ObsState
  | st, [] => st
  | st, batch :: rest => runObserver (stepEntries st batch) rest

/-! ## Hero slider timers (script.js 98-118, optimized file 143-160) -/

/-- Interval-timer bookkeeping for the hero slider: the next fresh timer
id, the ids of intervals currently live in the browser, and the value of
the slideTimer variable. -/
structure SliderState where
  next : Nat
  live : List Nat
  slideTimer : Option Nat
deriving Repr, DecidableEq

/-- The timer-relevant events of the slider. -/
inductive SliderEvent where
  | mouseenter
  | mouseleave
  | hidden
  | visible
deriving Repr, DecidableEq

/-- clearInterval(slideTimer): removes the stored id from the live set;
clearing an id that is no longer live is a browser no-op. The variable
keeps its value. -/
def clearCurrent (s : SliderState) : SliderState :=
  match s.slideTimer with
  | none => s
  | some i => { s with live := s.live.filter (fun x => x != i) }

/-- slideTimer = setInterval(nextSlide, interval): allocates a fresh live
interval and stores its id. -/
def setIntervalTimer (s : SliderState) : SliderState :=
  { next := s.next + 1, live := s.next :: s.live, slideTimer := some s.next }

/-- script.js handlers: mouseenter and the hidden branch of
visibilitychange call clearInterval only; mouseleave and the visible branch
call setInterval without clearing first. -/
def scriptSliderStep (s : SliderState) : SliderEvent → SliderState
  | .mouseenter => clearCurrent s
  | .mouseleave => setIntervalTimer s
  | .hidden => clearCurrent s
  | .visible => setIntervalTimer s

/-- script.js initialization: let slideTimer = setInterval(...). -/
def scriptSliderInit : SliderState := setIntervalTimer ⟨0, [], none⟩

/-- A run of slider events against the script.js handlers. -/
def runScriptSlider (evs : List SliderEvent) : SliderState :=
  evs.foldl scriptSliderStep scriptSliderInit

/-- stop() of the optimized file: clears the stored interval if any and
nulls the variable. -/
def sliderStop (s : SliderState) : SliderState :=
  match s.slideTimer with
  | none => s
  | some i => { s with live := s.live.filter (fun x => x != i), slideTimer := none }

/-- start() of the optimized file: clears the stored interval if any, then
schedules a fresh one. -/
def sliderStart (s : SliderState) : SliderState :=
  setIntervalTimer (clearCurrent s)

/-- Optimized-file handlers: mouseenter and hidden call stop, mouseleave
and visible call start. -/
def optSliderStep (s : SliderState) : SliderEvent → SliderState
  | .mouseenter => sliderStop s
  | .mouseleave => sliderStart s
  | .hidden => sliderStop s
  | .visible => sliderStart s

/-- Optimized-file initialization: showImage(0); start(). -/
def optSliderInit : SliderState := sliderStart ⟨0, [], none⟩

/-- A run of slider events against the optimized-file handlers. -/
def runOptSlider (evs : List SliderEvent) : SliderState :=
  evs.foldl optSliderStep optSliderInit

/-- At most one live timer: the live set is exactly the interval stored in
slideTimer, when there is one. -/
def timerInv (s : SliderState) : Prop :=
  s.live = match s.slideTimer with
    | none => []
    | some i => [i]

/-! ## Outbound UTM tagger (script.js 669-742, optimized file 603-658) -/

/-- URLSearchParams.set on a query modelled as an ordered list of
key-value pairs: overwrite the first occurrence of the key in place,
dropping later duplicates, or append the pair when the key is absent. -/
def setParam : List (String × String) → String → String → List (String × String)
  | [], k, v => [(k, v)]
  | (k', v') :: rest, k, v =>
      if k' = k then (k, v) :: rest.filter (fun p => p.1 != k)
      else (k', v') :: setParam rest k v

/-- URLSearchParams.get: value of the first occurrence of the key. -/
def getParam (q : List (String × String)) (k : String) : Option String :=
  (q.find? (fun p => p.1 == k)).map (fun p => p.2)

/-- The eight recognized tracking keys, in the key order of the object
literal of getUrlParams. -/
def trackingKeys : List String :=
  ["gclid", "gbraid", "wbraid", "utm_source", "utm_medium", "utm_campaign",
   "utm_term", "utm_content"]

/-- getUrlParams: reads each recognized tracking key from the page query
and drops the absent (null) ones, keeping the literal's key order. -/
def getUrlParams (pageQuery : List (String × String)) :
    List (String × String) :=
  trackingKeys.filterMap (fun k => (getParam pageQuery k).map (fun v => (k, v)))

/-- The default UTM triple substituted when no tracking parameters were
found on the page. -/
def defaultUtm : List (String × String) :=
  [("utm_source", "landing"), ("utm_medium", "cta"), ("utm_campaign", "iptv_sa")]

/-- appendTrackingParams, identical in both files: substitutes the default
triple for an empty parameter object, then sets every parameter on the
link URL's query in order. -/
def appendTrackingParams (linkQuery : List (String × String))
    (params : List (String × String)) : List (String × String) :=
  let ps := if params = [] then defaultUtm else params
  ps.foldl (fun q kv => setParam q kv.1 kv.2) linkQuery

/-- Whether the second character list occurs at the head of the first. -/
def leadsWith : List Char → List Char → Bool
  | _, [] => true
  | [], _ :: _ => false
  | a :: as, b :: bs => a == b && leadsWith as bs

/-- Whether the second character list occurs anywhere in the first: the
String.prototype.includes test of the rel update. -/
def hasSub : List Char → List Char → Bool
  | hay, needle =>
      leadsWith hay needle ||
        match hay with
        | [] => false
        | _ :: as => hasSub as needle

/-- currentRel.includes of initOutboundTracking, on the characters of the
rel attribute value. -/
def relHasNoopener (rel : String) : Bool :=
  hasSub rel.toList "noopener".toList

/-- The rel update of initOutboundTracking: append noopener when the
current rel value does not already contain it. -/
def updateRel (rel : String) : String :=
  if relHasNoopener rel then rel else rel ++ " noopener"

/-! ## Helper lemmas -/

theorem scriptScrollN_pending (n m : Nat) :
    scriptScrollN n ⟨⟨true, 1, 0⟩, m⟩ = ⟨⟨true, 1, 0⟩, m + n⟩ := by
  induction n generalizing m with
  | zero => rfl
  | succ n ih =>
      show scriptScrollN n (scriptScrollEvent ⟨⟨true, 1, 0⟩, m⟩) = _
      have h : scriptScrollEvent ⟨⟨true, 1, 0⟩, m⟩ = ⟨⟨true, 1, 0⟩, m + 1⟩ := rfl
      rw [h, ih]
      congr 1
      omega

theorem scriptFrameRun_closed (n : Nat) :
    scriptFrameRun n =
      if n = 0 then ⟨⟨false, 0, 0⟩, 0⟩ else ⟨⟨false, 0, 1⟩, n⟩ := by
  cases n with
  | zero => rfl
  | succ n =>
      have h1 : scriptScrollN (n + 1) ⟨Coord.idle, 0⟩ = ⟨⟨true, 1, 0⟩, 1 + n⟩ := by
        show scriptScrollN n (scriptScrollEvent ⟨Coord.idle, 0⟩) = _
        have h : scriptScrollEvent ⟨Coord.idle, 0⟩ = ⟨⟨true, 1, 0⟩, 1⟩ := rfl
        rw [h, scriptScrollN_pending]
      simp only [scriptFrameRun, h1]
      have h2 : (1 : Nat) + n = n + 1 := by omega
      simp [fireFrame, h2]

theorem optScrollN_pending (n : Nat) :
    optScrollN n ⟨⟨true, 1, 0⟩, ⟨true, 1, 0⟩⟩ = ⟨⟨true, 1, 0⟩, ⟨true, 1, 0⟩⟩ := by
  induction n with
  | zero => rfl
  | succ n ih =>
      show optScrollN n (optScrollEvent ⟨⟨true, 1, 0⟩, ⟨true, 1, 0⟩⟩) = _
      exact ih

theorem optFrameRun_closed (n : Nat) :
    optFrameRun n =
      if n = 0 then ⟨⟨false, 0, 0⟩, ⟨false, 0, 0⟩⟩ else ⟨⟨false, 0, 1⟩, ⟨false, 0, 1⟩⟩ := by
  cases n with
  | zero => rfl
  | succ n =>
      have h1 : optScrollN (n + 1) ⟨Coord.idle, Coord.idle⟩ =
          ⟨⟨true, 1, 0⟩, ⟨true, 1, 0⟩⟩ := by
        show optScrollN n (optScrollEvent ⟨Coord.idle, Coord.idle⟩) = _
        have h : optScrollEvent ⟨Coord.idle, Coord.idle⟩ =
            ⟨⟨true, 1, 0⟩, ⟨true, 1, 0⟩⟩ := rfl
        rw [h, optScrollN_pending]
      simp [optFrameRun, h1, fireFrame]

theorem stepEntries_one_shot (entries : List (Nat × Bool)) (st : ObsState) (e : Nat)
    (h1 : st.fireLog.count e ≤ 1)
    (h2 : e ∈ st.observed → st.fireLog.count e = 0) :
    (stepEntries st entries).fireLog.count e ≤ 1 ∧
      (e ∈ (stepEntries st entries).observed →
        (stepEntries st entries).fireLog.count e = 0) := by
  induction entries generalizing st with
  | nil => exact ⟨h1, h2⟩
  | cons p rest ih =>
      obtain ⟨x, inter⟩ := p
      simp only [stepEntries]
      by_cases hc : (inter && st.observed.contains x) = true
      · rw [if_pos hc]
        rw [Bool.and_eq_true] at hc
        obtain ⟨-, hmem⟩ := hc
        have hxmem : x ∈ st.observed := by
          simpa using hmem
        by_cases hxe : x = e
        · subst hxe
          have h0 : st.fireLog.count x = 0 := h2 hxmem
          refine ih _ ?_ ?_
          · simp [List.count_cons, h0]
          · intro hmem'
            have := (List.mem_filter.mp hmem').2
            simp at this
        · refine ih _ ?_ ?_
          · simpa [List.count_cons, hxe] using h1
          · intro hmem'
            have hm := (List.mem_filter.mp hmem').1
            simpa [List.count_cons, hxe] using h2 hm
      · rw [if_neg hc]
        exact ih st h1 h2

theorem runObserver_one_shot (trace : List (List (Nat × Bool))) (st : ObsState) (e : Nat)
    (h1 : st.fireLog.count e ≤ 1)
    (h2 : e ∈ st.observed → st.fireLog.count e = 0) :
    (runObserver st trace).fireLog.count e ≤ 1 := by
  induction trace generalizing st with
  | nil => exact h1
  | cons batch rest ih =>
      obtain ⟨g1, g2⟩ := stepEntries_one_shot batch st e h1 h2
      exact ih _ g1 g2

theorem stepEntries_fired_mem (entries : List (Nat × Bool)) (st : ObsState) (e : Nat)
    (h : (stepEntries st entries).fireLog.count e ≠ 0) :
    st.fireLog.count e ≠ 0 ∨ (e, true) ∈ entries := by
  induction entries generalizing st with
  | nil => exact Or.inl h
  | cons p rest ih =>
      obtain ⟨x, inter⟩ := p
      have h' : (stepEntries (if inter && st.observed.contains x then
          { observed := st.observed.filter (fun y => y != x)
            fireLog := x :: st.fireLog } else st) rest).fireLog.count e ≠ 0 := h
      rcases ih _ h' with hcount | hrest
      · by_cases hc : (inter && st.observed.contains x) = true
        · rw [if_pos hc] at hcount
          rw [Bool.and_eq_true] at hc
          obtain ⟨hinter, -⟩ := hc
          by_cases hxe : x = e
          · subst hxe
            exact Or.inr (by simp [hinter])
          · rw [List.count_cons] at hcount
            simp [hxe] at hcount
            exact Or.inl (by simpa using hcount)
        · rw [if_neg hc] at hcount
          exact Or.inl hcount
      · exact Or.inr (List.mem_cons_of_mem _ hrest)

theorem runObserver_fired_mem (trace : List (List (Nat × Bool))) (st : ObsState) (e : Nat)
    (h : (runObserver st trace).fireLog.count e ≠ 0) :
    st.fireLog.count e ≠ 0 ∨ ∃ batch ∈ trace, (e, true) ∈ batch := by
  induction trace generalizing st with
  | nil => exact Or.inl h
  | cons batch rest ih =>
      rcases ih _ h with hcount | ⟨b, hb, hmem⟩
      · rcases stepEntries_fired_mem batch st e hcount with hcount' | hmem
        · exact Or.inl hcount'
        · exact Or.inr ⟨batch, List.mem_cons_self _ _, hmem⟩
      · exact Or.inr ⟨b, List.mem_cons_of_mem _ hb, hmem⟩

theorem timerInv_sliderStop (s : SliderState) (h : timerInv s) :
    timerInv (sliderStop s) := by
  unfold timerInv at *
  unfold sliderStop
  cases hs : s.slideTimer with
  | none => simpa [hs] using h
  | some i =>
      rw [hs] at h
      simp [h]

theorem timerInv_sliderStart (s : SliderState) (h : timerInv s) :
    timerInv (sliderStart s) := by
  unfold timerInv at *
  unfold sliderStart clearCurrent setIntervalTimer
  cases hs : s.slideTimer with
  | none =>
      rw [hs] at h
      simp [h]
  | some i =>
      rw [hs] at h
      simp [h]

theorem timerInv_optSliderStep (s : SliderState) (ev : SliderEvent)
    (h : timerInv s) : timerInv (optSliderStep s ev) := by
  cases ev with
  | mouseenter => exact timerInv_sliderStop s h
  | mouseleave => exact timerInv_sliderStart s h
  | hidden => exact timerInv_sliderStop s h
  | visible => exact timerInv_sliderStart s h

theorem timerInv_foldl (evs : List SliderEvent) (s : SliderState)
    (h : timerInv s) : timerInv (evs.foldl optSliderStep s) := by
  induction evs generalizing s with
  | nil => exact h
  | cons ev rest ih => exact ih _ (timerInv_optSliderStep s ev h)

theorem timerInv_runOptSlider (evs : List SliderEvent) :
    timerInv (runOptSlider evs) := by
  refine timerInv_foldl evs optSliderInit ?_
  unfold timerInv optSliderInit sliderStart clearCurrent setIntervalTimer
  rfl

theorem applySection_applySection (links : List NavLink) (a b : String) :
    applySection (applySection links a) b = applySection links b := by
  unfold applySection
  rw [List.map_map]
  rfl

theorem setActiveLink_lastMatch (sections : List PageSection)
    (links : List NavLink) (v : Int) :
    setActiveLink sections links v =
      match lastMatch (sectionMatch (v + 100)) sections with
      | none => links
      | some s => applySection links s.id := by
  induction sections generalizing links with
  | nil => rfl
  | cons s rest ih =>
      unfold setActiveLink at ih ⊢
      rw [List.foldl_cons]
      unfold lastMatch
      by_cases hm : sectionMatch (v + 100) s = true
      · rw [if_pos hm, ih (applySection links s.id)]
        cases hl : lastMatch (sectionMatch (v + 100)) rest with
        | none => simp [hm]
        | some b => simp [applySection_applySection]
      · rw [if_neg hm, ih links]
        cases hl : lastMatch (sectionMatch (v + 100)) rest with
        | none => simp [hm]
        | some b => simp

theorem getParam_setParam_self (q : List (String × String)) (k v : String) :
    getParam (setParam q k v) k = some v := by
  induction q with
  | nil => simp [setParam, getParam]
  | cons p rest ih =>
      obtain ⟨k', v'⟩ := p
      by_cases h : k' = k
      · subst h
        simp [setParam, getParam]
      · simp only [setParam, if_neg h]
        simpa [getParam, List.find?_cons, h] using ih

theorem find?_filter_ne (rest : List (String × String)) (k k' : String)
    (hne : k ≠ k') :
    (rest.filter (fun p => p.1 != k')).find? (fun p => p.1 == k) =
      rest.find? (fun p => p.1 == k) := by
  induction rest with
  | nil => rfl
  | cons p rest ih =>
      obtain ⟨a, b⟩ := p
      by_cases ha : a = k'
      · subst ha
        have : ((a, b).1 == k) = false := by
          simp [Ne.symm hne]
        simp [List.find?_cons, this, ih]
      · by_cases hak : a = k
        · subst hak
          simp [List.find?_cons, ha]
        · simp [List.find?_cons, ha, hak, ih]

theorem getParam_setParam_ne (q : List (String × String)) (k k' v : String)
    (h : k ≠ k') :
    getParam (setParam q k' v) k = getParam q k := by
  induction q with
  | nil => simp [setParam, getParam, Ne.symm h]
  | cons p rest ih =>
      obtain ⟨a, b⟩ := p
      by_cases ha : a = k'
      · subst ha
        simp only [setParam, if_pos rfl]
        simp [getParam, List.find?_cons, Ne.symm h, find?_filter_ne rest k a h]
      · simp only [setParam, if_neg ha]
        by_cases hak : a = k
        · subst hak
          simp [getParam, List.find?_cons]
        · simpa [getParam, List.find?_cons, hak] using ih

theorem getParam_fold_not_mem (p : List (String × String))
    (q : List (String × String)) (k : String)
    (h : ∀ kv ∈ p, kv.1 ≠ k) :
    getParam (p.foldl (fun q kv => setParam q kv.1 kv.2) q) k = getParam q k := by
  induction p generalizing q with
  | nil => rfl
  | cons kv rest ih =>
      rw [List.foldl_cons]
      rw [ih _ (fun x hx => h x (List.mem_cons_of_mem _ hx))]
      exact getParam_setParam_ne q k kv.1 kv.2
        (Ne.symm (h kv (List.mem_cons_self _ _)))

theorem getParam_fold_mem (p : List (String × String))
    (q : List (String × String)) (k v : String)
    (hnd : (p.map Prod.fst).Nodup) (h : getParam p k = some v) :
    getParam (p.foldl (fun q kv => setParam q kv.1 kv.2) q) k = some v := by
  induction p generalizing q with
  | nil => simp [getParam] at h
  | cons kv rest ih =>
      obtain ⟨k0, v0⟩ := kv
      rw [List.foldl_cons]
      by_cases hk : k0 = k
      · subst hk
        have hv : v0 = v := by
          simpa [getParam, List.find?_cons] using h
        subst hv
        have hnotin : ∀ x ∈ rest, x.1 ≠ k0 := by
          intro x hx heq
          have : k0 ∈ rest.map Prod.fst := by
            rw [← heq]
            exact List.mem_map_of_mem _ hx
          simp only [List.map_cons, List.nodup_cons] at hnd
          exact hnd.1 this
        rw [getParam_fold_not_mem rest _ _ hnotin]
        exact getParam_setParam_self q k0 v0
      · have h' : getParam rest k = some v := by
          simpa [getParam, List.find?_cons, hk] using h
        have hnd' : (rest.map Prod.fst).Nodup := by
          simp only [List.map_cons, List.nodup_cons] at hnd
          exact hnd.2
        exact ih _ hnd' h'

theorem map_fst_filterMap_getParam (pq : List (String × String))
    (ks : List String) :
    (ks.filterMap (fun k => (getParam pq k).map (fun v => (k, v)))).map Prod.fst =
      ks.filter (fun k => (getParam pq k).isSome) := by
  induction ks with
  | nil => rfl
  | cons k ks ih =>
      cases h : getParam pq k with
      | none => simp [List.filterMap_cons, List.filter_cons, h, ih]
      | some v => simp [List.filterMap_cons, List.filter_cons, h, ih]

theorem getUrlParams_nodup (pq : List (String × String)) :
    ((getUrlParams pq).map Prod.fst).Nodup := by
  unfold getUrlParams
  rw [map_fst_filterMap_getParam]
  refine List.Nodup.filter _ ?_
  decide

/-! ## Claim theorems -/

/-- C1 counterexample: the claim says the scroll-driven DOM-update routine,
the active-nav-link update included, runs at most once per animation frame.
In script.js the setActiveLink listener is attached directly to the scroll
event, so two scroll events inside one frame invoke the active-nav-link
update twice. -/
theorem scroll_coalescing_counterexample :
    (scriptFrameRun 2).activeLinkRuns = 2 ∧
      ¬ (scriptFrameRun 2).activeLinkRuns ≤ 1 := by
  decide

/-- C1 amended: in both files the rAF-batched updateHeader routine runs at
most once per frame, a scroll event while idle schedules exactly one frame
callback and moves to pending, and a scroll event while pending is a no-op
for the coordinator; in the optimized file the active-link routine is
coalesced the same way, but in script.js setActiveLink runs once per scroll
event, that is n times in a frame with n scroll events. -/
theorem scroll_coalescing_amended :
    (∀ n, (scriptFrameRun n).coord.runs ≤ 1) ∧
    (∀ c : Coord, c.ticking = false →
      onScroll c = { c with scheduled := c.scheduled + 1, ticking := true }) ∧
    (∀ c : Coord, c.ticking = true → onScroll c = c) ∧
    (∀ n, (optFrameRun n).headerCoord.runs ≤ 1 ∧
      (optFrameRun n).activeCoord.runs ≤ 1) ∧
    (∀ n, (scriptFrameRun n).activeLinkRuns = n) := by
  refine ⟨?_, ?_, ?_, ?_, ?_⟩
  · intro n
    rw [scriptFrameRun_closed]
    by_cases h : n = 0 <;> simp [h]
  · intro c h
    simp [onScroll, h]
  · intro c h
    simp [onScroll, h]
  · intro n
    rw [optFrameRun_closed]
    by_cases h : n = 0 <;> simp [h]
  · intro n
    rw [scriptFrameRun_closed]
    by_cases h : n = 0 <;> simp [h]

/-- C1 witness: the amended theorem applied at concrete inputs. -/
theorem scroll_coalescing_amended_witness :
    (scriptFrameRun 3).coord.runs ≤ 1 ∧
    onScroll ⟨false, 2, 5⟩ = ⟨true, 3, 5⟩ ∧
    onScroll ⟨true, 1, 0⟩ = ⟨true, 1, 0⟩ :=
  ⟨scroll_coalescing_amended.1 3,
   scroll_coalescing_amended.2.1 ⟨false, 2, 5⟩ rfl,
   scroll_coalescing_amended.2.2.1 ⟨true, 1, 0⟩ rfl⟩

/-- C2 counterexample: the claim says the header's hide state is false
after every scroll-update invocation while the mobile nav overlay is open.
The code skips the hide/show block in that case and leaves a previously set
hide class in place: with the overlay open and the header already hidden,
updateHeader returns hide still true. -/
theorem header_hide_navopen_counterexample :
    (updateHeader true 80 true 10 ⟨false, true, false, 500⟩).hide = true := by
  decide

/-- C2 amended: while the mobile navigation overlay is open, a scroll
update never changes the header's hide state: in particular it never newly
hides the header, but it also does not clear a hide state set earlier. -/
theorem header_hide_navopen_amended :
    ∀ (headerHeight : Int) (backBtnPresent : Bool) (currentScroll : Int)
      (st : HeaderState),
      (updateHeader true headerHeight backBtnPresent currentScroll st).hide =
        st.hide := by
  intro headerHeight backBtnPresent currentScroll st
  rfl

/-- C3: over any sequence of observer check cycles from any initial watch
set, each element's visible callback fires at most once, and it fires only
if some cycle delivered an intersecting entry for that element, which the
platform does only once the element crossed the configured threshold. -/
theorem observer_one_shot_per_element :
    ∀ (observed : List Nat) (trace : List (List (Nat × Bool))) (e : Nat),
      (runObserver ⟨observed, []⟩ trace).fireLog.count e ≤ 1 ∧
      ((runObserver ⟨observed, []⟩ trace).fireLog.count e ≠ 0 →
        ∃ batch ∈ trace, (e, true) ∈ batch) := by
  intro observed trace e
  constructor
  · exact runObserver_one_shot trace ⟨observed, []⟩ e (by simp) (by simp)
  · intro h
    rcases runObserver_fired_mem trace ⟨observed, []⟩ e h with h0 | hex
    · simp at h0
    · exact hex

/-- C3 witness: the one-shot theorem applied to a single element that
intersects in the only cycle of the trace. -/
theorem observer_one_shot_per_element_witness :
    (runObserver ⟨[5], []⟩ [[(5, true)]]).fireLog.count 5 ≤ 1 ∧
    ∃ batch ∈ [[((5 : Nat), true)]], ((5 : Nat), true) ∈ batch :=
  ⟨(observer_one_shot_per_element [5] [[(5, true)]] 5).1,
   (observer_one_shot_per_element [5] [[(5, true)]] 5).2 (by decide)⟩

/-- C4: the optimized file's updateCountdown resets the persisted target to
now plus four days (345600000 ms) whenever the attribute is unparsable (NaN)
or already elapsed, rendering nothing; but script.js only tests
distance < 0, which is false for NaN, so an unparsable attribute makes it
render NaN in all four units instead of reinitializing. -/
theorem countdown_elapsed_reset_bug :
    (∀ now : Int, updateCountdownOpt (some none) now = .reset (now + fourDaysMs)) ∧
    (∀ (now : Int) (k : Nat),
      updateCountdownOpt (some (some (now - 1 - k))) now = .reset (now + fourDaysMs)) ∧
    (∀ (now : Int) (k : Nat),
      updateCountdown (some (some (now - 1 - k))) now = .reset (now + fourDaysMs)) ∧
    updateCountdown (some none) 0 = .render none none none none := by
  refine ⟨fun now => rfl, ?_, ?_, rfl⟩
  · intro now k
    simp only [updateCountdownOpt]
    rw [if_pos]
    omega
  · intro now k
    simp only [updateCountdown]
    rw [if_pos]
    omega

/-- C5: script.js dereferences optional elements without guards: with no
back-to-top button the top-level listener registration and the scroll
handler throw, and with no accordion every document click throws in the
outside-click handler. The guarded paths are silent no-ops as the claim
demands: the optimized file's outside-click handling, the countdown with a
missing container, and the back-to-top toggle inside updateHeader with a
missing button. -/
theorem missing_optional_element_bug :
    backToTopListenerSetup none = .error "TypeError: backToTopButton is null" ∧
    toggleBackToTopButton none 301 = .error "TypeError: backToTopButton is null" ∧
    accordionOutsideClick none true = .error "TypeError: accordion is null" ∧
    (∀ b, optAccordionOutsideClick none b = none) ∧
    (∀ now : Int, updateCountdown none now = .skip ∧
      updateCountdownOpt none now = .skip) ∧
    (∀ (nav : Bool) (hh c : Int) (st : HeaderState),
      (updateHeader nav hh false c st).backShow = st.backShow) := by
  exact ⟨rfl, rfl, rfl, fun b => rfl, fun now => ⟨rfl, rfl⟩,
    fun nav hh c st => rfl⟩

/-- C6: in script.js the mouseleave and visibility-visible handlers call
setInterval without clearing the stored timer first, so the event sequence
mouseenter, hidden, visible, mouseleave leaves two live intervals; the
optimized file's start/stop discipline keeps at most one live timer over
every event sequence. -/
theorem slider_timer_overlap_bug :
    (runScriptSlider [.mouseenter, .hidden, .visible, .mouseleave]).live.length = 2 ∧
    (∀ evs : List SliderEvent, (runOptSlider evs).live.length ≤ 1) := by
  constructor
  · decide
  · intro evs
    have h := timerInv_runOptSlider evs
    unfold timerInv at h
    rw [h]
    cases (runOptSlider evs).slideTimer <;> simp

/-- C7: after an updateHeader invocation with the back-to-top button
present, the button's shown state equals the test of the sampled offset
being strictly greater than 300; at offset 300 the button is hidden and at
301 shown, and the standalone toggleBackToTopButton handler of script.js
computes the same state. -/
theorem backToTop_threshold :
    ∀ (nav : Bool) (hh c : Int) (st : HeaderState) (b : Bool),
      (updateHeader nav hh true c st).backShow = decide (300 < c) ∧
      (updateHeader nav hh true 300 st).backShow = false ∧
      (updateHeader nav hh true 301 st).backShow = true ∧
      toggleBackToTopButton (some ⟨b⟩) c = .ok ⟨decide (300 < c)⟩ := by
  intro nav hh c st b
  exact ⟨rfl, rfl, rfl, rfl⟩

/-- C8 counterexample: the claim says the links targeting any active
section carry the active state. With two overlapping sections both
containing scrollY + 100, the loop leaves only the links of the later
section active: section a is active yet its link ends up inactive. -/
theorem active_section_counterexample :
    sectionMatch 100 ⟨0, 200, "a"⟩ = true ∧
    sectionMatch 100 ⟨0, 200, "b"⟩ = true ∧
    (setActiveLink [⟨0, 200, "a"⟩, ⟨0, 200, "b"⟩]
        [⟨"#a", false⟩, ⟨"#b", false⟩] 0).map NavLink.active = [false, true] := by
  decide

/-- C8 amended: setActiveLink leaves the links unchanged when no section
contains scrollY + 100, and otherwise sets active exactly on the links
whose href targets the last section in document order that contains
scrollY + 100; with a unique matching section this is the claim's
behavior. -/
theorem active_section_amended :
    ∀ (sections : List PageSection) (links : List NavLink) (v : Int),
      setActiveLink sections links v =
        match lastMatch (sectionMatch (v + 100)) sections with
        | none => links
        | some s => applySection links s.id :=
  fun sections links v => setActiveLink_lastMatch sections links v

/-- C9: for a link to the partner domain with query utm_source=google and a
page query utm_campaign=summer, the rewritten query carries both the merged
utm_campaign=summer and the preserved utm_source=google; the updated rel
value contains noopener; and with a page query holding none of the eight
recognized keys the default triple utm_source=landing, utm_medium=cta,
utm_campaign=iptv_sa is applied. -/
theorem outbound_tagger_merge :
    getParam (appendTrackingParams [("utm_source", "google")]
      (getUrlParams [("utm_campaign", "summer")])) "utm_campaign" = some "summer" ∧
    getParam (appendTrackingParams [("utm_source", "google")]
      (getUrlParams [("utm_campaign", "summer")])) "utm_source" = some "google" ∧
    relHasNoopener (updateRel "") = true ∧
    appendTrackingParams [("utm_source", "google")] (getUrlParams [("page", "1")]) =
      [("utm_source", "landing"), ("utm_medium", "cta"),
       ("utm_campaign", "iptv_sa")] := by
  refine ⟨?_, ?_, ?_, ?_⟩ <;> decide

/-- C10: a tracking key read from the page query overwrites the link URL's
own value for the same key: whatever value the link query carried, the
rewritten query resolves the key to the page's value. -/
theorem page_params_overwrite :
    ∀ (pageQuery linkQuery : List (String × String)) (k v w : String),
      getParam (getUrlParams pageQuery) k = some v →
      getParam linkQuery k = some w →
      getParam (appendTrackingParams linkQuery (getUrlParams pageQuery)) k =
        some v := by
  intro pageQuery linkQuery k v w hp _hl
  have hne : ¬ (getUrlParams pageQuery = []) := by
    intro h
    rw [h] at hp
    simp [getParam] at hp
  simp only [appendTrackingParams]
  rw [if_neg hne]
  exact getParam_fold_mem _ linkQuery k v (getUrlParams_nodup pageQuery) hp

/-- C10 witness: the overwrite theorem at a concrete page and link query
sharing the key utm_source. -/
theorem page_params_overwrite_witness :
    getParam (appendTrackingParams [("utm_source", "google")]
      (getUrlParams [("utm_source", "page")])) "utm_source" = some "page" :=
  page_params_overwrite [("utm_source", "page")] [("utm_source", "google")]
    "utm_source" "page" "google" (by decide) (by decide)

end Besher
